import Mathlib

/-!
Verification development for the PyConHK2024 torch-lightning notebooks.

The repository consists of two notebooks: a linear-regression comparison of a
hand-written training loop against a framework-driven one, and a ResNet18 /
CIFAR10 notebook exercising framework callbacks, a hyperparameter sampler and
a Slack monitoring callback.  The definitions below shallowly embed the
repository-defined data and glue code: tensors are idealised as lists of
rationals, random draws are abstract draw streams, and external effects are
reified as data.
-/

namespace Demo

/-- A tensor, idealised as a shape together with flat rational data
(the notebooks only rely on shapes and elementwise structure). -/
structure Tensor where
  shape : List Nat
  data : List ℚ
deriving DecidableEq

/-- Embedding of torch.linspace lo hi steps: evenly spaced values from lo
to hi inclusive. -/
def linspace (lo hi : ℚ) (steps : Nat) : Tensor :=
  { shape := [steps]
  , data := (List.range steps).map
      (fun i : Nat => lo + (hi - lo) * i / ((steps - 1 : Nat) : ℚ)) }

/-- Embedding of tensor.view(-1, 1): reshape a flat tensor into one column. -/
def viewCol (t : Tensor) : Tensor :=
  { shape := [t.data.length, 1], data := t.data }

/-- Embedding of torch.randn_like t, with the random source made explicit as
a draw stream: the result has the shape of t and one draw per element. -/
def randn_like (t : Tensor) (noise : Nat → ℚ) : Tensor :=
  { shape := t.shape, data := (List.range t.data.length).map noise }

/-- Scalar multiplication of a tensor, as in 0.2 * torch.randn_like x. -/
def smulT (c : ℚ) (t : Tensor) : Tensor :=
  { shape := t.shape, data := t.data.map (fun v => c * v) }

/-- Elementwise tensor addition, as in x + noise. -/
def addT (a b : Tensor) : Tensor :=
  { shape := a.shape, data := a.data.zipWith (fun u v => u + v) b.data }

/-- Notebook 01 dataset inputs: x = torch.linspace(0, 1, 500).view(-1, 1). -/
def xTensor : Tensor := viewCol (linspace 0 1 500)

/-- Notebook 01 dataset targets: y = x + 0.2 * torch.randn_like(x), with the
standard-normal draws abstracted into the stream noise. -/
def yTensor (noise : Nat → ℚ) : Tensor :=
  addT xTensor (smulT (1 / 5) (randn_like xTensor noise))

/-- Embedding of torch.utils.data.TensorDataset: the tuple of tensors it wraps. -/
structure TensorDataset where
  tensors : List Tensor
deriving DecidableEq

/-- Embedding of a library-built torch DataLoader over a dataset of type D:
just the construction arguments the notebooks pass to the library. -/
structure DataLoader (D : Type) where
  dataset : D
  batch_size : Nat
  shuffle : Bool
  num_workers : Nat
deriving DecidableEq

/-- Notebook 01 native-PyTorch training dataloader:
DataLoader(TensorDataset(x, y), batch_size=16, shuffle=True). -/
def nb1TrainLoader (noise : Nat → ℚ) : DataLoader TensorDataset :=
  { dataset := { tensors := [xTensor, yTensor noise] }
  , batch_size := 16, shuffle := true, num_workers := 0 }

/-- Notebook 01 native-PyTorch validation dataloader:
DataLoader(TensorDataset(x, y), batch_size=16, shuffle=False), built from the
same (x, y) pair as the training loader. -/
def nb1ValLoader (noise : Nat → ℚ) : DataLoader TensorDataset :=
  { dataset := { tensors := [xTensor, yTensor noise] }
  , batch_size := 16, shuffle := false, num_workers := 0 }

/-- Embedding of the notebook-01 LightningDataModule subclass DataModule:
the state its constructor stores. -/
structure DataModule where
  train_dataset : TensorDataset
  val_dataset : TensorDataset
  batch_size : Nat
deriving DecidableEq

/-- DataModule.__init__(x, y, batch_size): both datasets are
TensorDataset(x, y) built from the same pair. -/
def DataModule.init (x y : Tensor) (batch_size : Nat) : DataModule :=
  { train_dataset := { tensors := [x, y] }
  , val_dataset := { tensors := [x, y] }
  , batch_size := batch_size }

/-- DataModule.train_dataloader: DataLoader(self.train_dataset,
batch_size=self.batch_size, shuffle=True). -/
def DataModule.train_dataloader (m : DataModule) : DataLoader TensorDataset :=
  { dataset := m.train_dataset, batch_size := m.batch_size
  , shuffle := true, num_workers := 0 }

/-- DataModule.val_dataloader: DataLoader(self.val_dataset,
batch_size=self.batch_size, shuffle=False). -/
def DataModule.val_dataloader (m : DataModule) : DataLoader TensorDataset :=
  { dataset := m.val_dataset, batch_size := m.batch_size
  , shuffle := false, num_workers := 0 }

/-- One step of a torchvision transform pipeline, as configured in the
ResNet notebook. -/
inductive TransformStep
  | toTensor
  | normalize (mean : ℚ × ℚ × ℚ) (std : ℚ × ℚ × ℚ)
deriving DecidableEq

/-- transform = Compose([ToTensor(), Normalize((0.5,)*3, (0.5,)*3)]). -/
def transform : List TransformStep :=
  [TransformStep.toTensor
  , TransformStep.normalize (1/2, 1/2, 1/2) (1/2, 1/2, 1/2)]

/-- denorm_fn = Normalize((-1, -1, -1), (2, 2, 2)). -/
def denorm_fn : TransformStep :=
  TransformStep.normalize (-1, -1, -1) (2, 2, 2)

/-- DATAPATH = "./data" in the ResNet notebook. -/
def DATAPATH : String := "./data"

/-- Embedding of a torchvision.datasets.CIFAR10 instance: the construction
arguments the notebook passes to the library. -/
structure CIFAR10 where
  root : String
  train : Bool
  download : Bool
  tf : List TransformStep
deriving DecidableEq

/-- Embedding of the ResNet-notebook LightningDataModule subclass
DataModuleCIFAR10: the state its constructor stores. -/
structure DataModuleCIFAR10 where
  train_dataset : CIFAR10
  val_dataset : CIFAR10
  batch_size : Nat
deriving DecidableEq

/-- DataModuleCIFAR10.__init__(batch_size): both datasets are CIFAR10 at root
DATAPATH with download=True and the shared transform; train=True resp. False. -/
def DataModuleCIFAR10.init (batch_size : Nat) : DataModuleCIFAR10 :=
  { train_dataset :=
      { root := DATAPATH, train := true, download := true, tf := transform }
  , val_dataset :=
      { root := DATAPATH, train := false, download := true, tf := transform }
  , batch_size := batch_size }

/-- DataModuleCIFAR10.train_dataloader: DataLoader(self.train_dataset,
batch_size=self.batch_size, shuffle=True, num_workers=4). -/
def DataModuleCIFAR10.train_dataloader (m : DataModuleCIFAR10) : DataLoader CIFAR10 :=
  { dataset := m.train_dataset, batch_size := m.batch_size
  , shuffle := true, num_workers := 4 }

/-- DataModuleCIFAR10.val_dataloader: DataLoader(self.val_dataset,
batch_size=self.batch_size, shuffle=False, num_workers=4). -/
def DataModuleCIFAR10.val_dataloader (m : DataModuleCIFAR10) : DataLoader CIFAR10 :=
  { dataset := m.val_dataset, batch_size := m.batch_size
  , shuffle := false, num_workers := 4 }

/-- A plot layer produced by the visualize function (one seaborn call each). -/
inductive PlotLayer
  | scatter (xs ys : List ℚ) (label : String)
  | line (xs ys : List ℚ) (label : String)
deriving DecidableEq

/-- Whether a layer is the predictions scatter added by visualize. -/
def PlotLayer.isPredictionLayer : PlotLayer → Bool
  | PlotLayer.scatter _ _ l => l == "Predictions"
  | PlotLayer.line _ _ _ => false

/-- Embedding of visualize(x, y, y_pred=None): the list of plot layers drawn,
in order.  The observations scatter and the ground-truth line (y values equal
to the x values) are always drawn; the predictions scatter is appended only
when y_pred is not None. -/
def visualize (x y : Tensor) (y_pred : Option Tensor) : List PlotLayer :=
  match y_pred with
  | none =>
      [PlotLayer.scatter x.data y.data ("Observations")
      , PlotLayer.line x.data x.data ("Ground truth")]
  | some yp =>
      [PlotLayer.scatter x.data y.data ("Observations")
      , PlotLayer.line x.data x.data ("Ground truth")
      , PlotLayer.scatter x.data yp.data ("Predictions")]

/-- search_space from the ResNet notebook: for each group, the [low, high]
range of each named hyperparameter (1e-7 etc. written as exact rationals). -/
def search_space : List (String × List (String × (ℚ × ℚ))) :=
  [ ("optimizer",
      [ ("lr", (1 / 10000000, 1 / 100000))
      , ("weight_decay", (1 / 100, 1 / 10))])
  , ("scheduler",
      [ ("step_size", (5, 10))
      , ("gamma", (1 / 10, 1 / 2))])]

/-- Embedding of np.random.uniform(low, high): the affine image of a unit
draw u from [0, 1). -/
def np_random_uniform (low high u : ℚ) : ℚ := low + (high - low) * u

/-- Inner loop body of generate_hyperparameters: one np.random.uniform draw
per (subkey, [low, high]) entry, consuming draws n, n+1, ... in order. -/
def sampleLeaves (u : Nat → ℚ) : Nat → List (String × (ℚ × ℚ)) → List (String × ℚ)
  | _, [] => []
  | n, (k, r) :: rest => (k, np_random_uniform r.1 r.2 (u n)) :: sampleLeaves u (n + 1) rest

/-- Outer loop body of generate_hyperparameters over the search-space groups. -/
def sampleGroups (u : Nat → ℚ) :
    Nat → List (String × List (String × (ℚ × ℚ))) → List (String × List (String × ℚ))
  | _, [] => []
  | n, (k, leaves) :: rest =>
      (k, sampleLeaves u n leaves) :: sampleGroups u (n + leaves.length) rest

/-- generate_hyperparameters from the ResNet notebook: for every group and
subkey of search_space, one i.i.d. np.random.uniform(low, high) value, with
the stream of underlying unit draws made explicit as u. -/
def generate_hyperparameters (u : Nat → ℚ) : List (String × List (String × ℚ)) :=
  sampleGroups u 0 search_space

/-- The nested key structure of a two-level hyperparameter dictionary:
top-level keys with their lists of sub-keys, values dropped. -/
def keyStructure {A : Type} (h : List (String × List (String × A))) :
    List (String × List String) :=
  h.map (fun p => (p.1, p.2.map Prod.fst))

/-- The environment-variable assignments of the first cell of the ResNet
notebook: all three Slack variables are set to the empty string. -/
def notebookEnvAssignments : List (String × String) :=
  [ ("SLACK_APP_TOKEN", "")
  , ("SLACK_BOT_TOKEN", "")
  , ("SLACK_DEFAULT_CHANNEL_ID", "")]

/-- The process environment after the first cell of the ResNet notebook. -/
def notebookEnv : String → Option String := fun k =>
  notebookEnvAssignments.lookup k

/-- Embedding of demo.slack.client.SlackClient: the configuration it holds. -/
structure SlackClient where
  app_token : String
  bot_token : String
  default_channel_id : String
deriving DecidableEq

/-- Modelled from the spec: the constructor of demo.slack.client.SlackClient,
whose source file is not under src/.  Per the spec it is configured from the
three environment variables (application token, bot token, default channel
identifier) with no validation logic applied by the repository, so it is a
total function of the environment. -/
def SlackClient.init (env : String → Option String) : SlackClient :=
  { app_token := (env ("SLACK_APP_TOKEN")).getD ""
  , bot_token := (env ("SLACK_BOT_TOKEN")).getD ""
  , default_channel_id := (env ("SLACK_DEFAULT_CHANNEL_ID")).getD "" }

/-- An external call made by the Slack monitoring callback. -/
inductive ExternalCall
  | sendMessage (text : String)
  | checkStopFlag
deriving DecidableEq

/-- Modelled from the spec: the formatted status string the callback sends
(demo.lightning.callbacks.slack is not under src/). -/
def statusString (epoch : Nat) : String :=
  "Epoch " ++ toString epoch ++ " finished."

/-- Embedding of demo.lightning.callbacks.slack.MonitorTrainingOnSlack:
the state its constructor stores. -/
structure MonitorTrainingOnSlack where
  slack_client : SlackClient
  log_every_n_epoch : Nat
deriving DecidableEq

/-- Modelled from the spec: the epoch-end hook of MonitorTrainingOnSlack,
whose source file is not under src/.  Per the spec, on the fixed cadence of
every log_every_n_epoch epochs it sends a formatted status string and polls a
remote stop flag to decide whether to request termination; it is a pure
function of the epoch and the flag (no retry, no state).  The result is the
list of external calls made and whether termination is requested. -/
def MonitorTrainingOnSlack.on_train_epoch_end (cb : MonitorTrainingOnSlack)
    (epoch : Nat) (stop_flag : Bool) : List ExternalCall × Bool :=
  if epoch % cb.log_every_n_epoch = 0 then
    ([ExternalCall.sendMessage (statusString epoch), ExternalCall.checkStopFlag], stop_flag)
  else
    ([], false)

/-- Construction arguments of the ModelCheckpoint built-in callback as passed
by the ResNet notebook; filename and dirpath are Options because the library
defaults for both are None. -/
structure ModelCheckpointArgs where
  dirpath : Option String
  filename : Option String
  monitor : Option String
  save_top_k : Int
  mode : String
  verbose : Bool
deriving DecidableEq

/-- The ModelCheckpoint arguments of the callbacks cell of the ResNet
notebook, the repository-chosen filename template included. -/
def cell13ModelCheckpointArgs : ModelCheckpointArgs :=
  { dirpath := some ("./models")
  , filename := some ("resnet18_cifar10_best_\x7bepoch:02d\x7d")
  , monitor := some ("val_loss")
  , save_top_k := 1
  , mode := "min"
  , verbose := true }

/-- The external world a training run observes: the monitored validation loss
after each epoch and the remote Slack stop flag read at each epoch end. -/
structure World where
  val_loss : Nat → ℚ
  slack_stop : Nat → Bool

/-- The (best score, wait count) state of the EarlyStopping built-in callback
monitoring val_loss in min mode, after the check of each epoch. -/
def esState (val_loss : Nat → ℚ) : Nat → ℚ × Nat
  | 0 => (val_loss 0, 0)
  | e + 1 =>
      let s := esState val_loss e
      if val_loss (e + 1) < s.1 then (val_loss (e + 1), 0) else (s.1, s.2 + 1)

/-- Whether EarlyStopping with the given patience requests a stop at the end
of epoch e: the wait count has reached the patience. -/
def earlyStopTriggered (patience : Nat) (val_loss : Nat → ℚ) (e : Nat) : Bool :=
  decide (patience ≤ (esState val_loss e).2)

/-- Modelled from the spec: whether MonitorTrainingOnSlack requests a stop at
the end of epoch e — on its cadence it polls the remote flag and forwards it. -/
def slackStopRequest (n : Nat) (flag : Nat → Bool) (e : Nat) : Bool :=
  (e % n == 0) && flag e

/-- A callback instance handed to a Trainer by the notebooks. -/
inductive CallbackSpec
  | earlyStopping (monitor mode : String) (patience : Nat) (verbose : Bool)
  | modelCheckpoint (args : ModelCheckpointArgs)
  | monitorSlack (log_every_n_epoch : Nat)
deriving DecidableEq

/-- The stop request a callback issues at the end of epoch e in world w.
ModelCheckpoint never requests a stop. -/
def callbackStop (w : World) : CallbackSpec → Nat → Bool
  | CallbackSpec.earlyStopping _ _ p _, e => earlyStopTriggered p w.val_loss e
  | CallbackSpec.modelCheckpoint _, _ => false
  | CallbackSpec.monitorSlack n, e => slackStopRequest n w.slack_stop e

/-- The epoch loop of the library Trainer: run one epoch, then end the run if
any callback requested a stop; otherwise continue while epochs remain.
Returns the number of epochs executed. -/
def runEpochs (stop : Nat → Bool) : Nat → Nat → Nat
  | start, 0 => start
  | start, fuel + 1 => if stop start then start + 1 else runEpochs stop (start + 1) fuel

/-- Number of epochs a Trainer(max_epochs=..., callbacks=...) executes in
world w before stopping. -/
def runTrainer (max_epochs : Nat) (cbs : List CallbackSpec) (w : World) : Nat :=
  runEpochs (fun e => cbs.any (fun c => callbackStop w c e)) 0 max_epochs

/-- The callbacks list of the built-in-callbacks cell of the ResNet notebook:
EarlyStopping(monitor="val_loss", mode="min", patience=1, verbose=True) and
the ModelCheckpoint instance. -/
def cell13Callbacks : List CallbackSpec :=
  [ CallbackSpec.earlyStopping ("val_loss") ("min") 1 true
  , CallbackSpec.modelCheckpoint cell13ModelCheckpointArgs]

/-- The callbacks list of the customized-callbacks cell of the ResNet
notebook: only MonitorTrainingOnSlack(log_every_n_epoch=1). -/
def cell16Callbacks : List CallbackSpec :=
  [CallbackSpec.monitorSlack 1]

/-- Modelled from the spec: demo.torch.utils.train_regression_model is not
under src/; per the spec the hand-rolled native loop has no cancellation or
timeout mechanism of its own, so it executes the full requested number of
epochs. -/
def train_regression_model_epochs (n_epochs : Nat) : Nat := n_epochs

/-- A concrete world in which the remote Slack stop flag is always raised. -/
def worldStopNow : World :=
  { val_loss := fun _ => 0, slack_stop := fun _ => true }

/-- C3 counterexample: the claim that neither the checkpoint filename pattern
nor the dataset directory path is a value supplied by this repository's own
code fails — the notebook passes an explicit filename template (overriding
the library default None) to ModelCheckpoint, and an explicit root path
DATAPATH = "./data" to the CIFAR10 constructor. -/
theorem repo_supplies_checkpoint_filename_and_datapath :
    cell13ModelCheckpointArgs.filename ≠ none ∧
    cell13ModelCheckpointArgs.filename = some ("resnet18_cifar10_best_\x7bepoch:02d\x7d") ∧
    cell13ModelCheckpointArgs.dirpath ≠ none ∧
    DATAPATH = "./data" ∧
    (DataModuleCIFAR10.init 512).train_dataset.root = DATAPATH := by
  refine ⟨?_, rfl, ?_, rfl, rfl⟩ <;> simp [cell13ModelCheckpointArgs]

/-- C3 (amended): the repository's own code supplies both the checkpoint
filename template string and the dataset root directory string; only the
expansion of the template into a concrete file name and the dataset layout
beneath the root are library-defined. -/
theorem checkpoint_and_datapath_literals :
    cell13ModelCheckpointArgs.filename = some ("resnet18_cifar10_best_\x7bepoch:02d\x7d") ∧
    cell13ModelCheckpointArgs.dirpath = some ("./models") ∧
    DATAPATH = "./data" ∧
    (DataModuleCIFAR10.init 512).train_dataset.root = DATAPATH ∧
    (DataModuleCIFAR10.init 512).val_dataset.root = DATAPATH :=
  ⟨rfl, rfl, rfl, rfl, rfl⟩

/-- C4: both data-module wrappers expose exactly the two dataloader accessors
embedded here (train_dataloader and val_dataloader, the only such methods in
the source), and each accessor returns a library-built DataLoader over the
dataset stored at construction with the batch size stored at construction,
with no transformation applied by the wrapper itself. -/
theorem datamodule_dataloaders_from_construction (x y : Tensor) (bs bs2 : Nat) :
    (DataModule.init x y bs).train_dataloader =
      { dataset := { tensors := [x, y] }, batch_size := bs
      , shuffle := true, num_workers := 0 } ∧
    (DataModule.init x y bs).val_dataloader =
      { dataset := { tensors := [x, y] }, batch_size := bs
      , shuffle := false, num_workers := 0 } ∧
    (DataModuleCIFAR10.init bs2).train_dataloader =
      { dataset := { root := DATAPATH, train := true, download := true, tf := transform }
      , batch_size := bs2, shuffle := true, num_workers := 4 } ∧
    (DataModuleCIFAR10.init bs2).val_dataloader =
      { dataset := { root := DATAPATH, train := false, download := true, tf := transform }
      , batch_size := bs2, shuffle := false, num_workers := 4 } :=
  ⟨rfl, rfl, rfl, rfl⟩

/-- C9: in the regression demo the validation data is identical to the
training data: the native-PyTorch val_dataloader wraps the same
TensorDataset(x, y) as the train_dataloader, and the Lightning DataModule
stores the same dataset for validation as for training, so every sample
served for validation is also a training sample. -/
theorem validation_equals_training_data (noise : Nat → ℚ) (x y : Tensor) (bs : Nat) :
    (nb1ValLoader noise).dataset = (nb1TrainLoader noise).dataset ∧
    (DataModule.init x y bs).val_dataset = (DataModule.init x y bs).train_dataset ∧
    ((DataModule.init x y bs).val_dataloader).dataset =
      ((DataModule.init x y bs).train_dataloader).dataset :=
  ⟨rfl, rfl, rfl⟩

/-- C10: visualize accepts a None prediction argument: on None it draws
exactly the observations scatter and the ground-truth line; in general the
predictions layer is present if and only if y_pred is not None, and the
function is total (it never fails on the None case). -/
theorem visualize_handles_missing_predictions (x y : Tensor) (yp : Option Tensor) :
    visualize x y none =
      [PlotLayer.scatter x.data y.data ("Observations")
      , PlotLayer.line x.data x.data ("Ground truth")] ∧
    ((visualize x y yp).any PlotLayer.isPredictionLayer = yp.isSome) ∧
    (visualize x y yp).length = 2 + (if yp.isSome then 1 else 0) := by
  refine ⟨rfl, ?_, ?_⟩ <;> cases yp <;>
    simp [visualize, PlotLayer.isPredictionLayer]

/-- C6: the messaging-service client is configured from exactly the three
environment variables (its construction depends on no other key), and no
validation is applied: construction is total, and the notebook environment
with all three variables set to the empty string yields the client with all
three fields empty. -/
theorem slack_client_env_configuration (e1 e2 : String → Option String)
    (h1 : e1 ("SLACK_APP_TOKEN") = e2 ("SLACK_APP_TOKEN"))
    (h2 : e1 ("SLACK_BOT_TOKEN") = e2 ("SLACK_BOT_TOKEN"))
    (h3 : e1 ("SLACK_DEFAULT_CHANNEL_ID") = e2 ("SLACK_DEFAULT_CHANNEL_ID")) :
    SlackClient.init e1 = SlackClient.init e2 ∧
    SlackClient.init notebookEnv =
      { app_token := "", bot_token := "", default_channel_id := "" } := by
  constructor
  · simp [SlackClient.init, h1, h2, h3]
  · rfl

/-- Witness for C6 at the notebook environment. -/
theorem slack_client_env_configuration_inst :
    SlackClient.init notebookEnv = SlackClient.init notebookEnv ∧
    SlackClient.init notebookEnv =
      { app_token := "", bot_token := "", default_channel_id := "" } :=
  slack_client_env_configuration notebookEnv notebookEnv rfl rfl rfl

/-- C5: on its fixed cadence (epochs divisible by log_every_n_epoch) the
Slack monitoring callback performs exactly two external calls — it sends the
formatted status string and checks the remote stop flag — and requests
termination exactly when the flag is raised; off-cadence it makes no call and
requests nothing.  The hook is a pure function of the epoch and the flag, so
it keeps no non-trivial state. -/
theorem monitor_slack_epoch_end_calls (cb : MonitorTrainingOnSlack)
    (epoch : Nat) (flag : Bool) :
    (epoch % cb.log_every_n_epoch = 0 →
      (cb.on_train_epoch_end epoch flag).1 =
        [ExternalCall.sendMessage (statusString epoch), ExternalCall.checkStopFlag] ∧
      (cb.on_train_epoch_end epoch flag).1.length = 2 ∧
      (cb.on_train_epoch_end epoch flag).2 = flag) ∧
    (¬ epoch % cb.log_every_n_epoch = 0 →
      (cb.on_train_epoch_end epoch flag).1 = [] ∧
      (cb.on_train_epoch_end epoch flag).2 = false) := by
  constructor <;> intro h <;>
    simp [MonitorTrainingOnSlack.on_train_epoch_end, h]

/-- Witness for C5 at epoch 0 with cadence 1 and a raised flag. -/
theorem monitor_slack_epoch_end_calls_inst :
    ((MonitorTrainingOnSlack.mk (SlackClient.init notebookEnv) 1).on_train_epoch_end 0 true).1 =
      [ExternalCall.sendMessage (statusString 0), ExternalCall.checkStopFlag] ∧
    ((MonitorTrainingOnSlack.mk (SlackClient.init notebookEnv) 1).on_train_epoch_end 0 true).1.length = 2 ∧
    ((MonitorTrainingOnSlack.mk (SlackClient.init notebookEnv) 1).on_train_epoch_end 0 true).2 = true :=
  (monitor_slack_epoch_end_calls
    (MonitorTrainingOnSlack.mk (SlackClient.init notebookEnv) 1) 0 true).1 rfl

/-- np.random.uniform(low, high) lies in [low, high] whenever low ≤ high and
the underlying unit draw is in [0, 1). -/
theorem np_random_uniform_mem (low high u : ℚ) (hlh : low ≤ high)
    (h0 : 0 ≤ u) (h1 : u < 1) :
    low ≤ np_random_uniform low high u ∧ np_random_uniform low high u ≤ high := by
  unfold np_random_uniform
  constructor
  · nlinarith
  · nlinarith

/-- C1: for every draw stream whose unit draws lie in [0, 1) (the contract of
np.random.uniform), generate_hyperparameters returns a dictionary with
exactly the top-level keys of search_space, each with exactly the sub-keys of
the corresponding search_space entry, and every leaf value lies within the
fixed [low, high] range of that named parameter; each leaf is one fresh
i.i.d. uniform draw and nothing else. -/
theorem generate_hyperparameters_spec (u : Nat → ℚ)
    (hu : ∀ n, 0 ≤ u n ∧ u n < 1) :
    keyStructure (generate_hyperparameters u) = keyStructure search_space ∧
    ∀ gk leaves, (gk, leaves) ∈ generate_hyperparameters u →
      ∀ sk v, (sk, v) ∈ leaves →
        ∃ ranges, (gk, ranges) ∈ search_space ∧
          ∃ lo hi, (sk, (lo, hi)) ∈ ranges ∧ lo ≤ v ∧ v ≤ hi := by
  constructor
  · rfl
  · intro gk leaves hg sk v hs
    have hspell : generate_hyperparameters u =
        [ ("optimizer",
            [ ("lr", np_random_uniform (1 / 10000000) (1 / 100000) (u 0))
            , ("weight_decay", np_random_uniform (1 / 100) (1 / 10) (u 1))])
        , ("scheduler",
            [ ("step_size", np_random_uniform 5 10 (u 2))
            , ("gamma", np_random_uniform (1 / 10) (1 / 2) (u 3))])] := rfl
    rw [hspell] at hg
    simp only [List.mem_cons, List.not_mem_nil, or_false, Prod.mk.injEq] at hg
    rcases hg with ⟨rfl, rfl⟩ | ⟨rfl, rfl⟩ <;>
      simp only [List.mem_cons, List.not_mem_nil, or_false, Prod.mk.injEq] at hs
    · rcases hs with ⟨rfl, rfl⟩ | ⟨rfl, rfl⟩
      · refine ⟨[("lr", (1 / 10000000, 1 / 100000)), ("weight_decay", (1 / 100, 1 / 10))],
          by simp [search_space], 1 / 10000000, 1 / 100000, by simp, ?_, ?_⟩
        · exact (np_random_uniform_mem _ _ _ (by norm_num) (hu 0).1 (hu 0).2).1
        · exact (np_random_uniform_mem _ _ _ (by norm_num) (hu 0).1 (hu 0).2).2
      · refine ⟨[("lr", (1 / 10000000, 1 / 100000)), ("weight_decay", (1 / 100, 1 / 10))],
          by simp [search_space], 1 / 100, 1 / 10, by simp, ?_, ?_⟩
        · exact (np_random_uniform_mem _ _ _ (by norm_num) (hu 1).1 (hu 1).2).1
        · exact (np_random_uniform_mem _ _ _ (by norm_num) (hu 1).1 (hu 1).2).2
    · rcases hs with ⟨rfl, rfl⟩ | ⟨rfl, rfl⟩
      · refine ⟨[("step_size", (5, 10)), ("gamma", (1 / 10, 1 / 2))],
          by simp [search_space], 5, 10, by simp, ?_, ?_⟩
        · exact (np_random_uniform_mem _ _ _ (by norm_num) (hu 2).1 (hu 2).2).1
        · exact (np_random_uniform_mem _ _ _ (by norm_num) (hu 2).1 (hu 2).2).2
      · refine ⟨[("step_size", (5, 10)), ("gamma", (1 / 10, 1 / 2))],
          by simp [search_space], 1 / 10, 1 / 2, by simp, ?_, ?_⟩
        · exact (np_random_uniform_mem _ _ _ (by norm_num) (hu 3).1 (hu 3).2).1
        · exact (np_random_uniform_mem _ _ _ (by norm_num) (hu 3).1 (hu 3).2).2

/-- Witness for C1 at the constant draw stream 1/2. -/
theorem generate_hyperparameters_spec_inst :
    (∀ n : Nat, 0 ≤ (fun _ : Nat => (1 : ℚ) / 2) n ∧ (fun _ : Nat => (1 : ℚ) / 2) n < 1) ∧
    keyStructure (generate_hyperparameters (fun _ : Nat => (1 : ℚ) / 2)) =
      keyStructure search_space :=
  ⟨fun _ => by norm_num,
    (generate_hyperparameters_spec (fun _ : Nat => (1 : ℚ) / 2)
      (fun _ => by norm_num)).1⟩

/-- C7 counterexample: the claim that no checkable boundary condition or
invariant over the inputs and outputs of a repository-defined function is
definable fails — here are two such checks, settled at concrete inputs: the
key structure of a sampled hyperparameter dictionary equals that of
search_space, and a sampled learning rate stays inside its configured
[low, high] range. -/
theorem definable_invariant_instance :
    keyStructure (generate_hyperparameters (fun _ : Nat => (1 : ℚ) / 2)) =
      keyStructure search_space ∧
    (1 / 10000000 : ℚ) ≤ np_random_uniform (1 / 10000000) (1 / 100000) (1 / 2) ∧
    np_random_uniform (1 / 10000000) (1 / 100000) (1 / 2) ≤ 1 / 100000 := by
  refine ⟨rfl, ?_, ?_⟩ <;> norm_num [np_random_uniform]

/-- C7 (amended): checkable invariants and boundary conditions over the
repository's own functions are definable — for every draw stream the sampled
dictionary has exactly search_space's key structure, and visualize always
yields exactly two layers on an omitted prediction — though each such
property concerns only thin glue code. -/
theorem definable_invariants_exist (u : Nat → ℚ) :
    keyStructure (generate_hyperparameters u) = keyStructure search_space ∧
    ∀ x y : Tensor, (visualize x y none).length = 2 :=
  ⟨rfl, fun _ _ => rfl⟩

/-- If no callback ever requests a stop, the epoch loop runs its full fuel. -/
theorem runEpochs_const_false (stop : Nat → Bool) (h : ∀ e, stop e = false) :
    ∀ fuel start, runEpochs stop start fuel = start + fuel := by
  intro fuel
  induction fuel with
  | zero => intro start; rfl
  | succ n ih =>
      intro start
      simp [runEpochs, h start, ih (start + 1)]
      omega

/-- If the epoch loop ends before exhausting its fuel, some callback
requested a stop at some executed epoch. -/
theorem runEpochs_lt_stop (stop : Nat → Bool) :
    ∀ fuel start, runEpochs stop start fuel < start + fuel →
      ∃ e, start ≤ e ∧ e < start + fuel ∧ stop e = true := by
  intro fuel
  induction fuel with
  | zero =>
      intro start h
      simp only [runEpochs] at h
      omega
  | succ n ih =>
      intro start h
      cases hstop : stop start with
      | true => exact ⟨start, Nat.le_refl start, by omega, hstop⟩
      | false =>
          simp [runEpochs, hstop] at h
          obtain ⟨e, h1, h2, h3⟩ := ih (start + 1) (by omega)
          exact ⟨e, by omega, by omega, h3⟩

/-- C2 counterexample: the claim that the patience parameter of EarlyStopping
is the only repository-supplied mechanism that can stop training before
max_epochs fails — the customized-callbacks run (max_epochs = 50) carries
only the repository's Slack monitoring callback, and in a world whose remote
stop flag is raised it ends after a single epoch. -/
theorem slack_stop_halts_cell17_run :
    cell16Callbacks = [CallbackSpec.monitorSlack 1] ∧
    runTrainer 50 cell16Callbacks worldStopNow = 1 ∧
    runTrainer 50 cell16Callbacks worldStopNow < 50 := by
  refine ⟨rfl, rfl, ?_⟩
  have h : runTrainer 50 cell16Callbacks worldStopNow = 1 := rfl
  omega

/-- C2 (amended): the repository-supplied mechanisms that can end a training
run before its configured epoch budget are exactly the patience counter
handed to EarlyStopping and the remote stop flag polled by the Slack
monitoring callback: the hand-rolled native loop and every run configured
without callbacks always execute the full budget, a premature end of the
built-in-callbacks run implies the early-stopping trigger fired, and a
premature end of the customized-callbacks run implies the remote flag was
raised. -/
theorem early_stop_mechanisms_characterised (w : World) :
    train_regression_model_epochs 5 = 5 ∧
    runTrainer 5 [] w = 5 ∧
    runTrainer 10 [] w = 10 ∧
    (runTrainer 10 cell13Callbacks w < 10 →
      ∃ e, e < 10 ∧ earlyStopTriggered 1 w.val_loss e = true) ∧
    (runTrainer 50 cell16Callbacks w < 50 →
      ∃ e, e < 50 ∧ w.slack_stop e = true) := by
  refine ⟨rfl, ?_, ?_, ?_, ?_⟩
  · simpa using runEpochs_const_false _ (fun _ => rfl) 5 0
  · simpa using runEpochs_const_false _ (fun _ => rfl) 10 0
  · intro h
    obtain ⟨e, h1, h2, h3⟩ := runEpochs_lt_stop _ 10 0 (by simpa [runTrainer] using h)
    refine ⟨e, by omega, ?_⟩
    simpa [cell13Callbacks, callbackStop] using h3
  · intro h
    obtain ⟨e, h1, h2, h3⟩ := runEpochs_lt_stop _ 50 0 (by simpa [runTrainer] using h)
    refine ⟨e, by omega, ?_⟩
    simpa [cell16Callbacks, callbackStop, slackStopRequest, Nat.mod_one] using h3

/-- Witness for C2 (amended) at the always-stop world. -/
theorem early_stop_mechanisms_characterised_inst :
    runTrainer 50 cell16Callbacks worldStopNow < 50 ∧
    ∃ e, e < 50 ∧ worldStopNow.slack_stop e = true := by
  have h : runTrainer 50 cell16Callbacks worldStopNow < 50 := by
    have h1 : runTrainer 50 cell16Callbacks worldStopNow = 1 := rfl
    omega
  exact ⟨h, (early_stop_mechanisms_characterised worldStopNow).2.2.2.2 h⟩

/-- Zipping two maps of the same index list combines them pointwise. -/
theorem zipWith_map_same {A B C D : Type} (g : B → C → D) (f : A → B) (h : A → C) :
    ∀ l : List A, List.zipWith g (l.map f) (l.map h) = l.map (fun a => g (f a) (h a))
  | [] => rfl
  | a :: l => by simp [zipWith_map_same g f h l]

/-- The flat data of the regression inputs is the list of the 500 evenly
spaced rationals i / 499. -/
theorem xTensor_data_spell :
    xTensor.data = (List.range 500).map (fun i : Nat => (i : ℚ) / 499) := by
  simp only [xTensor, viewCol, linspace]
  refine List.map_congr_left ?_
  intro a _
  norm_num

/-- The flat data of the regression targets adds a scaled noise draw to each
evenly spaced input value. -/
theorem yTensor_data_spell (noise : Nat → ℚ) :
    (yTensor noise).data =
      (List.range 500).map (fun i : Nat => (i : ℚ) / 499 + (1 / 5) * noise i) := by
  have hlen : xTensor.data.length = 500 := by rw [xTensor_data_spell]; simp
  simp only [yTensor, addT, smulT, randn_like]
  rw [hlen, xTensor_data_spell, List.map_map, zipWith_map_same]
  simp [Function.comp]

/-- C8: the regression dataset is the generated pair (x, y): x holds the 500
evenly spaced values i / 499 spanning [0, 1] (first value 0, last value 1)
reshaped to 500 rows of one feature, and for every noise stream y has the
identical 500 x 1 shape with each target equal to the corresponding input
plus the noise term 0.2 * noise. -/
theorem regression_dataset_shape_and_values (noise : Nat → ℚ) :
    xTensor.shape = [500, 1] ∧
    (yTensor noise).shape = xTensor.shape ∧
    xTensor.data.length = 500 ∧
    (yTensor noise).data.length = 500 ∧
    xTensor.data[(0 : Nat)]? = some 0 ∧
    xTensor.data[(499 : Nat)]? = some 1 ∧
    (∀ i : Fin 500, xTensor.data[(i : Nat)]? = some (((i : Nat) : ℚ) / 499)) ∧
    (∀ i : Fin 500, (yTensor noise).data[(i : Nat)]? =
      some (((i : Nat) : ℚ) / 499 + (1 / 5) * noise (i : Nat))) := by
  have hx : ∀ i : Fin 500, xTensor.data[(i : Nat)]? = some (((i : Nat) : ℚ) / 499) := by
    intro i
    rw [xTensor_data_spell]
    simp [List.getElem?_map, List.getElem?_range, i.isLt]
  have hy : ∀ i : Fin 500, (yTensor noise).data[(i : Nat)]? =
      some (((i : Nat) : ℚ) / 499 + (1 / 5) * noise (i : Nat)) := by
    intro i
    rw [yTensor_data_spell]
    simp [List.getElem?_map, List.getElem?_range, i.isLt]
  have hxlen : xTensor.data.length = 500 := by rw [xTensor_data_spell]; simp
  have hylen : (yTensor noise).data.length = 500 := by rw [yTensor_data_spell]; simp
  refine ⟨?_, ?_, hxlen, hylen, ?_, ?_, hx, hy⟩
  · simp [xTensor, viewCol, linspace]
  · rfl
  · have h0 := hx ⟨0, by norm_num⟩
    simpa using h0
  · have h1 := hx ⟨499, by norm_num⟩
    norm_num at h1
    exact h1

end Demo
